import Mathlib

/-!
# EchoAuth credential and session-security subsystem: a shallow embedding

This file embeds the core of the EchoAuth authentication service in Lean and
proves properties of the embedded code.  Sources embedded:

* `models/token.go` — the refresh-token record and `IsValid`;
* `repositories/token_repository.go` — `GetRefreshToken`,
  `RotateRefreshToken`, `RevokeRefreshToken` over a relational store
  modelled as a list of rows; the SQL transaction of `RotateRefreshToken`
  is modelled by an oracle (`TxOracle`) saying which statements succeed:
  on any failure the deferred rollback leaves the store unchanged;
* `services/account_lockout.go` — per-identity failed-attempt counter and
  lock flag in Redis, modelled as optional values paired with their expiry
  instant (a Redis key with TTL is live while `now < expiry`);
* `auth/services/rate_limiter.go` — the sliding-window Lua script over a
  Redis sorted set, modelled as a list of (score, member) entries plus the
  key's expiry;
* `models/token_claims.go` and the golang-jwt v3 claim checks — a signed
  JWT is modelled as its claims paired with the secret that signed it;
  signature verification succeeds exactly when the secrets agree;
* `services/auth_service.go` — `Login`, `LoginWithRefresh`,
  `ValidateToken`, `Logout` and the refresh-token exchange
  (`AuthService.RefreshToken`, here `RefreshTokenExchange` because the
  record type already carries the source name `RefreshToken`).

Time is Unix seconds as `Int`.  Redis/SQL I/O failures are outside the
model except where the code's own control flow depends on them (the
rotation transaction).  Random values produced by the code (UUIDs, fresh
token strings, nanosecond nonces) enter as explicit parameters.
-/

namespace EchoAuth

/-- `models/token.go`: one row of the `refresh_tokens` table. -/
structure RefreshToken where
  id : Nat
  userId : Nat
  token : String
  used : Bool
  revokedAt : Option Int
  expiresAt : Int
  createdAt : Int
  updatedAt : Int
  previousId : Option Nat
  deviceInfo : String
  ip : String
deriving Repr, DecidableEq

/-- `models/token.go` `RefreshToken.IsValid`: not used, not revoked, and
`ExpiresAt.After(time.Now())`. -/
def RefreshToken.IsValid (rt : RefreshToken) (now : Int) : Bool :=
  !rt.used && rt.revokedAt == none && decide (now < rt.expiresAt)

/-- `repositories/token_repository.go` `GetRefreshToken`: `SELECT ... WHERE
token = $1` (the token column carries a unique index; the first match is
the row). -/
def GetRefreshToken (store : List RefreshToken) (tok : String) : Option RefreshToken :=
  store.find? (fun rt => rt.token == tok)

/-- `repositories/token_repository.go` `CreateRefreshToken`: INSERT of a
fresh row; `used`/`revoked_at`/`previous_id` take their column defaults. -/
def CreateRefreshToken (store : List RefreshToken) (newId userID : Nat) (token : String)
    (expiresAt : Int) (deviceInfo ip : String) (now : Int) :
    List RefreshToken × RefreshToken :=
  let rt : RefreshToken :=
    { id := newId, userId := userID, token := token, used := false, revokedAt := none
      expiresAt := expiresAt, createdAt := now, updatedAt := now
      previousId := none, deviceInfo := deviceInfo, ip := ip }
  (store ++ [rt], rt)

/-- Which statements of the rotation transaction succeed. -/
structure TxOracle where
  beginOk : Bool
  updateOk : Bool
  insertOk : Bool
  commitOk : Bool
deriving Repr, DecidableEq

/-- The `UPDATE refresh_tokens SET used = true, updated_at = $1 WHERE id = $2`
of the rotation transaction. -/
def markUsed (now : Int) (id : Nat) (store : List RefreshToken) : List RefreshToken :=
  store.map (fun rt => if rt.id == id then { rt with used := true, updatedAt := now } else rt)

/-- The successor row `RotateRefreshToken` inserts: fresh id and token
string, the caller's `expiresAt`, `previous_id` pointing at the current
row, and the current row's identity, device descriptor and address. -/
def rotatedSuccessor (cur : RefreshToken) (newId : Nat) (newToken : String)
    (expiresAt now : Int) : RefreshToken :=
  { id := newId, userId := cur.userId, token := newToken, used := false, revokedAt := none
    expiresAt := expiresAt, createdAt := now, updatedAt := now
    previousId := some cur.id, deviceInfo := cur.deviceInfo, ip := cur.ip }

/-- `repositories/token_repository.go` `RotateRefreshToken`: in one
transaction, mark the current row used and insert the successor; the
deferred rollback undoes everything unless every statement and the commit
succeed. -/
def RotateRefreshToken (store : List RefreshToken) (currentToken : RefreshToken)
    (newToken : String) (expiresAt now : Int) (newId : Nat) (tx : TxOracle) :
    List RefreshToken × Option RefreshToken :=
  if tx.beginOk && tx.updateOk && tx.insertOk && tx.commitOk then
    (markUsed now currentToken.id store ++
        [rotatedSuccessor currentToken newId newToken expiresAt now],
      some (rotatedSuccessor currentToken newId newToken expiresAt now))
  else (store, none)

inductive RepoError
  | notFound
deriving Repr, DecidableEq

/-- `repositories/token_repository.go` `RevokeRefreshToken`:
`UPDATE refresh_tokens SET revoked_at = $1, updated_at = $2 WHERE token = $3`
(no guard on `revoked_at`), then `ErrNotFound` when no row was affected. -/
def RevokeRefreshToken (store : List RefreshToken) (tok : String) (now : Int) :
    List RefreshToken × Except RepoError Unit :=
  let store' := store.map (fun rt =>
    if rt.token == tok then { rt with revokedAt := some now, updatedAt := now } else rt)
  if store.any (fun rt => rt.token == tok) then (store', .ok ())
  else (store, .error .notFound)

/-! ## Account lockout (`services/account_lockout.go`)

Per-identity Redis state: the `failed_attempts:<email>` counter and the
`account_locked:<email>` flag, each an optional value with its expiry
instant.  An expired key is absent. -/

structure LockoutState where
  attempts : Option (Nat × Int)
  lock : Option Int
deriving Repr, DecidableEq

def LockoutState.empty : LockoutState := ⟨none, none⟩

structure LockoutConfig where
  maxAttempts : Nat
  lockDuration : Int
  attemptExpiry : Int
deriving Repr, DecidableEq

/-- `NewAccountLockoutService`: 5 attempts, 15 min lock, 1 h attempt expiry. -/
def defaultLockoutConfig : LockoutConfig := ⟨5, 15 * 60, 60 * 60⟩

/-- `IsLocked`: `EXISTS account_locked:<email>`. -/
def IsLocked (st : LockoutState) (now : Int) : Bool :=
  match st.lock with
  | some e => decide (now < e)
  | none => false

/-- The value `GET failed_attempts:<email>` sees (0 for an absent key, used
only as "increment starts from 0"). -/
def liveAttempts (st : LockoutState) (now : Int) : Nat :=
  match st.attempts with
  | some (v, e) => if now < e then v else 0
  | none => 0

inductive LockoutError
  | accountLocked
deriving Repr, DecidableEq

/-- `RecordFailedAttempt`: refuse when locked; otherwise `INCR` + `EXPIRE`
the counter, and when the new count reaches `maxAttempts` set the lock with
its own TTL. -/
def RecordFailedAttempt (cfg : LockoutConfig) (st : LockoutState) (now : Int) :
    LockoutState × Except LockoutError Unit :=
  if IsLocked st now then (st, .error .accountLocked)
  else
    let n := liveAttempts st now + 1
    let st1 : LockoutState := { st with attempts := some (n, now + cfg.attemptExpiry) }
    if cfg.maxAttempts ≤ n then
      ({ st1 with lock := some (now + cfg.lockDuration) }, .ok ())
    else (st1, .ok ())

/-- `ResetAttempts`: `DEL` both keys. -/
def ResetAttempts (_st : LockoutState) : LockoutState := ⟨none, none⟩

/-! ## Rate limiter (`auth/services/rate_limiter.go`)

Per-key Redis sorted set of attempts plus the key's expiry; the Lua script
prunes scores in `[0, now - window]`, denies at `maxAttempts`, else adds a
uniquely-suffixed member and refreshes the key's TTL to the window. -/

structure RLState where
  entries : List (Int × String)
  expiresAt : Option Int
deriving Repr, DecidableEq

def rlEmpty : RLState := ⟨[], none⟩

structure RateLimiterConfig where
  maxAttempts : Nat
  window : Int
deriving Repr, DecidableEq

/-- The state the script sees: an expired key is an absent (empty) key. -/
def rlLive (st : RLState) (now : Int) : RLState :=
  match st.expiresAt with
  | some e => if now < e then st else rlEmpty
  | none => st

/-- `ZADD`: update the score of an existing member, else append. -/
def zadd (entries : List (Int × String)) (score : Int) (member : String) :
    List (Int × String) :=
  if entries.any (fun p => p.2 == member) then
    entries.map (fun p => if p.2 == member then (score, member) else p)
  else entries ++ [(score, member)]

/-- The unique member the script adds: `ARGV[2] .. ':' .. ARGV[5]`. -/
def rlMember (now : Int) (nanos : Nat) : String :=
  toString now ++ ":" ++ toString nanos

/-- `redisRateLimiter.Allow`: the atomic Lua script.  `nanos` is the
caller's nanosecond nonce. -/
def Allow (cfg : RateLimiterConfig) (st : RLState) (now : Int) (nanos : Nat) :
    RLState × Bool :=
  let windowStart := now - cfg.window
  let st0 := rlLive st now
  let pruned := st0.entries.filter
    (fun p => !(decide (0 ≤ p.1) && decide (p.1 ≤ windowStart)))
  if cfg.maxAttempts ≤ pruned.length then
    ({ st0 with entries := pruned }, false)
  else
    ({ entries := zadd pruned now (rlMember now nanos),
       expiresAt := some (now + cfg.window) }, true)

/-! ## Access tokens (`services/auth_service.go`, `models/token_claims.go`)

A signed JWT is its claims plus the signing secret; the blacklist is a
list of (token, entry-expiry) pairs in Redis. -/

structure TokenClaims where
  userId : Nat
  expiresAt : Int
  issuedAt : Int
deriving Repr, DecidableEq

structure SignedToken where
  claims : TokenClaims
  secret : String
deriving Repr, DecidableEq

/-- `GenerateToken` / the JWT built inside `Login`: `user_id`, `exp`, `iat`
signed with the server secret. -/
def signToken (secret : String) (userId : Nat) (exp iat : Int) : SignedToken :=
  ⟨⟨userId, exp, iat⟩, secret⟩

inductive AuthError
  | tokenBlacklisted
  | jwtExpired
  | jwtIssuedInFuture
  | jwtMissingUserId
  | jwtMissingExpiry
  | jwtMissingIssuedAt
  | jwtBadSignature
  | invalidRefreshToken
  | refreshNotLive
  | rotationFailed
  | invalidCredentials
  | invalidCredentialsLWR
  | accountLocked
  | notFound
deriving Repr, DecidableEq

/-- `models/token_claims.go` `TokenClaims.Valid` together with golang-jwt
v3 `StandardClaims.Valid`: `exp` (when present) must not be in the past,
`iat` (when present) must not be in the future, then the custom checks
`user_id ≠ 0`, `exp ≠ 0`, `iat ≠ 0`. -/
def claimsValid (c : TokenClaims) (now : Int) : Except AuthError Unit :=
  if c.expiresAt ≠ 0 ∧ c.expiresAt < now then .error .jwtExpired
  else if c.issuedAt ≠ 0 ∧ now < c.issuedAt then .error .jwtIssuedInFuture
  else if c.userId = 0 then .error .jwtMissingUserId
  else if c.expiresAt = 0 then .error .jwtMissingExpiry
  else if c.issuedAt = 0 then .error .jwtMissingIssuedAt
  else .ok ()

/-- `jwt.ParseWithClaims` with the HS256 keyfunc: the claims are checked and
the signature must have been produced by the server's secret. -/
def parseWithClaims (secret : String) (tok : SignedToken) (now : Int) :
    Except AuthError TokenClaims :=
  match claimsValid tok.claims now with
  | .error e => .error e
  | .ok _ => if tok.secret ≠ secret then .error .jwtBadSignature else .ok tok.claims

/-- One blacklist entry per token with its own expiry instant. -/
abbrev Blacklist := List (SignedToken × Int)

/-- `EXISTS blacklist:<token>`. -/
def blacklisted (bl : Blacklist) (tok : SignedToken) (now : Int) : Bool :=
  (bl : List (SignedToken × Int)).any (fun p => p.1 == tok && decide (now < p.2))

/-- `services/auth_service.go` `ValidateToken`: the blacklist is consulted
first, then the token is parsed and its signature and claims checked. -/
def ValidateToken (secret : String) (bl : Blacklist) (tok : SignedToken) (now : Int) :
    Except AuthError TokenClaims :=
  if blacklisted bl tok now then .error .tokenBlacklisted
  else parseWithClaims secret tok now

/-- `services/auth_service.go` `Logout`: validate, compute the remaining
validity, no-op when it is not positive, else write a blacklist entry whose
TTL is the remaining validity. -/
def Logout (secret : String) (bl : Blacklist) (tok : SignedToken) (now : Int) :
    Blacklist × Except AuthError Unit :=
  match ValidateToken secret bl tok now with
  | .error e => (bl, .error e)
  | .ok claims =>
    let ttl := claims.expiresAt - now
    if ttl ≤ 0 then (bl, .ok ())
    else ((bl : List (SignedToken × Int)) ++ [(tok, now + ttl)], .ok ())

/-! ## The credential service (`services/auth_service.go`) -/

/-- `models/user.go`: the fields the login path reads.  `password` is the
credential the stored bcrypt hash verifies. -/
structure User where
  id : Nat
  email : String
  password : String
deriving Repr, DecidableEq

/-- `UserRepository.FindByEmail` (unique email column). -/
def findByEmail (users : List User) (email : String) : Option User :=
  users.find? (fun u => u.email == email)

/-- `user.CheckPassword`: the bcrypt comparison succeeds exactly for the
credential the hash was built from. -/
def checkPassword (u : User) (p : String) : Bool := u.password == p

/-- `AuthService.Login`: lockout gate, user lookup (a missing user records
a failed attempt and reports invalid credentials), password check (a
mismatch records a failed attempt), reset on success, then a 24 h JWT. -/
def Login (users : List User) (lo : LockoutState) (email password secret : String)
    (now : Int) : LockoutState × Except AuthError SignedToken :=
  if IsLocked lo now then (lo, .error .accountLocked)
  else
    match findByEmail users email with
    | none =>
      ((RecordFailedAttempt defaultLockoutConfig lo now).1, .error .invalidCredentials)
    | some u =>
      if !checkPassword u password then
        let r := RecordFailedAttempt defaultLockoutConfig lo now
        match r.2 with
        | .error .accountLocked => (r.1, .error .accountLocked)
        | .ok _ => (r.1, .error .invalidCredentials)
      else
        (ResetAttempts lo, .ok (signToken secret u.id (now + 24 * 3600) now))

/-- `AuthService.LoginWithRefresh`: user lookup (its error is surfaced
as-is), password check (its own `invalid credentials` error value), then an
access token and a stored refresh token.  The body never touches the
lockout service. -/
def LoginWithRefresh (users : List User) (store : List RefreshToken)
    (email password deviceInfo ip secret : String) (jwtExpiry refreshExpiry now : Int)
    (freshToken : String) (newId : Nat) :
    List RefreshToken × Except AuthError (SignedToken × String) :=
  match findByEmail users email with
  | none => (store, .error .notFound)
  | some u =>
    if !checkPassword u password then (store, .error .invalidCredentialsLWR)
    else
      let access := signToken secret u.id (now + jwtExpiry) now
      let created := CreateRefreshToken store newId u.id freshToken
        (now + refreshExpiry) deviceInfo ip now
      (created.1, .ok (access, freshToken))

/-- `AuthService.RefreshToken` (named `RefreshTokenExchange` here because
the row type carries the source name `RefreshToken`): fetch (any failure
becomes the `invalid refresh token` error), the liveness check (one shared
`expired or revoked` error), then a fresh access token and the rotation.
`deviceInfo` and `ip` are parameters of the source function that its body
never reads. -/
def RefreshTokenExchange (store : List RefreshToken)
    (refreshToken deviceInfo ip secret : String) (jwtExpiry refreshExpiry now : Int)
    (newRefreshString : String) (newId : Nat) (tx : TxOracle) :
    List RefreshToken × Except AuthError (SignedToken × String) :=
  match GetRefreshToken store refreshToken with
  | none => (store, .error .invalidRefreshToken)
  | some t =>
    if !t.IsValid now then (store, .error .refreshNotLive)
    else
      let access := signToken secret t.userId (now + jwtExpiry) now
      match RotateRefreshToken store t newRefreshString (now + refreshExpiry) now newId tx with
      | (store', some _) => (store', .ok (access, newRefreshString))
      | (store', none) => (store', .error .rotationFailed)

/-! ## Decidability and sample data -/

instance {e a : Type} [DecidableEq e] [DecidableEq a] : DecidableEq (Except e a)
  | .error x, .error y =>
    if h : x = y then .isTrue (by rw [h]) else .isFalse (fun hh => h (Except.error.inj hh))
  | .error _, .ok _ => .isFalse (fun hh => Except.noConfusion hh)
  | .ok _, .error _ => .isFalse (fun hh => Except.noConfusion hh)
  | .ok x, .ok y =>
    if h : x = y then .isTrue (by rw [h]) else .isFalse (fun hh => h (Except.ok.inj hh))

/-- The lockout state after `k` consecutive `RecordFailedAttempt` calls at
instant `now`, starting from no recorded attempts. -/
def failN : Nat → Int → LockoutState
  | 0, _ => LockoutState.empty
  | n + 1, now => (RecordFailedAttempt defaultLockoutConfig (failN n now) now).1

/-- The rate-limiter configuration of the spec's window property. -/
def cfg6 : RateLimiterConfig := ⟨3, 1⟩

/-- A transaction where every statement succeeds. -/
def txAllOk : TxOracle := ⟨true, true, true, true⟩

def curSample : RefreshToken :=
  ⟨1, 7, "old", false, none, 100, 0, 0, none, "dev", "addr"⟩

def usedTok : RefreshToken := ⟨1, 7, "u", true, none, 100, 0, 0, none, "d", "a"⟩

def expiredTok : RefreshToken := ⟨2, 7, "e", false, none, 5, 0, 0, none, "d", "a"⟩

def revTok : RefreshToken := ⟨1, 7, "t", false, none, 100, 0, 0, none, "d", "a"⟩

def aliceUser : User := ⟨1, "a", "pw"⟩

/-- A lockout state whose lock key is live until instant 100. -/
def lockedLo : LockoutState := ⟨none, some 100⟩

def badSigTok : SignedToken := ⟨⟨1, 100, 1⟩, "wrong"⟩

def blSample : Blacklist := [(badSigTok, 50)]

def expiredSigned : SignedToken := ⟨⟨1, 5, 1⟩, "s"⟩

/-! ## Helper lemmas -/

theorem record_ok_of_unlocked (cfg : LockoutConfig) (lo : LockoutState) (now : Int)
    (h : IsLocked lo now = false) :
    (RecordFailedAttempt cfg lo now).2 = .ok () := by
  unfold RecordFailedAttempt
  rw [h]
  simp only [Bool.false_eq_true, if_false]
  split <;> rfl

theorem record_step (v : Nat) (now : Int) (hv : v + 1 < 5) :
    RecordFailedAttempt defaultLockoutConfig ⟨some (v, now + 3600), none⟩ now =
      (⟨some (v + 1, now + 3600), none⟩, .ok ()) := by
  have hlt : now < now + 3600 := by omega
  have hle : ¬ (5 ≤ v + 1) := by omega
  simp [RecordFailedAttempt, IsLocked, liveAttempts, defaultLockoutConfig, hlt, hle]

theorem str_append_right_ne (s a b : String) (h : a ≠ b) : s ++ a ≠ s ++ b := by
  intro he
  apply h
  have hd := congrArg String.data he
  simp [String.data_append] at hd
  exact String.ext hd

theorem rlMember_ne (t : Int) (a b : Nat) (h : toString a ≠ toString b) :
    rlMember t a ≠ rlMember t b :=
  str_append_right_ne (toString t ++ ":") (toString a) (toString b) h

/-! ## The claims -/

/-- C1.  A successful `RotateRefreshToken` returns a successor whose
`previousId` is the current record's id, carrying the current record's
user id, device metadata and origin address with the fresh `expiresAt`;
the store then holds the successor and every record with the current id
has `used = true`; and when any statement of the transaction fails the
store is unchanged (both writes commit or neither does).  `hfresh` is the
freshness of the generated UUID. -/
theorem rotate_chain_integrity (store : List RefreshToken) (cur : RefreshToken)
    (newToken : String) (expiresAt now : Int) (newId : Nat) (tx : TxOracle)
    (hfresh : newId ≠ cur.id) :
    (∀ succ, (RotateRefreshToken store cur newToken expiresAt now newId tx).2 = some succ →
      succ.previousId = some cur.id ∧ succ.userId = cur.userId ∧
      succ.deviceInfo = cur.deviceInfo ∧ succ.ip = cur.ip ∧ succ.expiresAt = expiresAt ∧
      succ ∈ (RotateRefreshToken store cur newToken expiresAt now newId tx).1 ∧
      ∀ rt ∈ (RotateRefreshToken store cur newToken expiresAt now newId tx).1,
        rt.id = cur.id → rt.used = true) ∧
    ((RotateRefreshToken store cur newToken expiresAt now newId tx).2 = none →
      (RotateRefreshToken store cur newToken expiresAt now newId tx).1 = store) := by
  unfold RotateRefreshToken
  by_cases h : (tx.beginOk && tx.updateOk && tx.insertOk && tx.commitOk) = true
  · simp only [h, if_true]
    refine ⟨fun succ hs => ?_, fun hn => by simp at hn⟩
    have hsucc : succ = rotatedSuccessor cur newId newToken expiresAt now :=
      (Option.some.inj hs).symm
    subst hsucc
    refine ⟨rfl, rfl, rfl, rfl, rfl, ?_, ?_⟩
    · exact List.mem_append_right _ (List.mem_singleton.mpr rfl)
    · intro rt hrt hid
      rcases List.mem_append.1 hrt with hm | hm
      · rcases List.mem_map.1 hm with ⟨a, _, rfl⟩
        by_cases hb : (a.id == cur.id) = true
        · simp [hb]
        · exfalso
          rw [if_neg (by simp [hb])] at hid
          exact hb (by simp [hid])
      · exfalso
        have : rt = rotatedSuccessor cur newId newToken expiresAt now :=
          List.mem_singleton.mp hm
        subst this
        exact hfresh hid
  · simp only [h, if_false]
    exact ⟨fun succ hs => by simp at hs, fun _ => rfl⟩

/-- C1 witness: the theorem applied to a one-row store and an
all-successful transaction. -/
theorem rotate_chain_integrity_witness :
    (∀ succ, (RotateRefreshToken [curSample] curSample "new" 200 10 2 txAllOk).2 = some succ →
      succ.previousId = some curSample.id ∧ succ.userId = curSample.userId ∧
      succ.deviceInfo = curSample.deviceInfo ∧ succ.ip = curSample.ip ∧
      succ.expiresAt = 200 ∧
      succ ∈ (RotateRefreshToken [curSample] curSample "new" 200 10 2 txAllOk).1 ∧
      ∀ rt ∈ (RotateRefreshToken [curSample] curSample "new" 200 10 2 txAllOk).1,
        rt.id = curSample.id → rt.used = true) ∧
    ((RotateRefreshToken [curSample] curSample "new" 200 10 2 txAllOk).2 = none →
      (RotateRefreshToken [curSample] curSample "new" 200 10 2 txAllOk).1 = [curSample]) :=
  rotate_chain_integrity [curSample] curSample "new" 200 10 2 txAllOk (by decide)

/-- C10.  `AuthService.RefreshToken` never reads its `deviceInfo` and `ip`
parameters: two calls differing only in them return identical tokens and
leave identical stores (rotation copies the predecessor record's device
metadata and origin address). -/
theorem refresh_ignores_device_metadata (store : List RefreshToken)
    (tok d1 i1 d2 i2 secret : String) (jwtExpiry refreshExpiry now : Int)
    (newRefreshString : String) (newId : Nat) (tx : TxOracle) :
    RefreshTokenExchange store tok d1 i1 secret jwtExpiry refreshExpiry now
        newRefreshString newId tx =
      RefreshTokenExchange store tok d2 i2 secret jwtExpiry refreshExpiry now
        newRefreshString newId tx := rfl

/-- C5.  With the default `maxAttempts = 5`: starting from no recorded
attempts, five consecutive `RecordFailedAttempt` calls all succeed and
leave the identity locked with the counter at 5; a sixth call returns the
distinguished locked error and leaves the state (so the counter) unchanged. -/
theorem lockout_threshold (now : Int) :
    (∀ k, k < 5 → (RecordFailedAttempt defaultLockoutConfig (failN k now) now).2 = .ok ()) ∧
    IsLocked (failN 5 now) now = true ∧
    liveAttempts (failN 5 now) now = 5 ∧
    RecordFailedAttempt defaultLockoutConfig (failN 5 now) now =
      (failN 5 now, .error .accountLocked) := by
  have h1 : RecordFailedAttempt defaultLockoutConfig LockoutState.empty now =
      (⟨some (1, now + 3600), none⟩, .ok ()) := by
    simp [RecordFailedAttempt, IsLocked, liveAttempts, LockoutState.empty,
      defaultLockoutConfig]
  have h5 : RecordFailedAttempt defaultLockoutConfig ⟨some (4, now + 3600), none⟩ now =
      (⟨some (5, now + 3600), some (now + 900)⟩, .ok ()) := by
    have hlt : now < now + 3600 := by omega
    simp [RecordFailedAttempt, IsLocked, liveAttempts, defaultLockoutConfig, hlt]
  have f0 : failN 0 now = LockoutState.empty := rfl
  have f1 : failN 1 now = ⟨some (1, now + 3600), none⟩ := by
    show (RecordFailedAttempt defaultLockoutConfig (failN 0 now) now).1 = _
    rw [f0, h1]
  have f2 : failN 2 now = ⟨some (2, now + 3600), none⟩ := by
    show (RecordFailedAttempt defaultLockoutConfig (failN 1 now) now).1 = _
    rw [f1, record_step 1 now (by omega)]
  have f3 : failN 3 now = ⟨some (3, now + 3600), none⟩ := by
    show (RecordFailedAttempt defaultLockoutConfig (failN 2 now) now).1 = _
    rw [f2, record_step 2 now (by omega)]
  have f4 : failN 4 now = ⟨some (4, now + 3600), none⟩ := by
    show (RecordFailedAttempt defaultLockoutConfig (failN 3 now) now).1 = _
    rw [f3, record_step 3 now (by omega)]
  have f5 : failN 5 now = ⟨some (5, now + 3600), some (now + 900)⟩ := by
    show (RecordFailedAttempt defaultLockoutConfig (failN 4 now) now).1 = _
    rw [f4, h5]
  have hlock : IsLocked (failN 5 now) now = true := by
    rw [f5]
    simp [IsLocked]
  refine ⟨?_, hlock, ?_, ?_⟩
  · intro k hk
    interval_cases k
    · rw [f0]; exact record_ok_of_unlocked _ _ _ rfl
    · rw [f1]; exact record_ok_of_unlocked _ _ _ rfl
    · rw [f2]; exact record_ok_of_unlocked _ _ _ rfl
    · rw [f3]; exact record_ok_of_unlocked _ _ _ rfl
    · rw [f4]; exact record_ok_of_unlocked _ _ _ rfl
  · rw [f5]
    simp [liveAttempts]
  · unfold RecordFailedAttempt
    rw [hlock]
    simp

/-- C4 counterexample.  A second `RevokeRefreshToken` on the same token
string returns no error but OVERWRITES `revokedAt` with the later call's
time: after revoking at instant 0 then at instant 1, the stored
`revokedAt` is 1, not the 0 set by the first call. -/
theorem revoke_twice_counterexample :
    (RevokeRefreshToken [revTok] "t" 0).2 = .ok () ∧
    ((RevokeRefreshToken [revTok] "t" 0).1.map (fun rt => rt.revokedAt)) = [some 0] ∧
    (RevokeRefreshToken (RevokeRefreshToken [revTok] "t" 0).1 "t" 1).2 = .ok () ∧
    ((RevokeRefreshToken (RevokeRefreshToken [revTok] "t" 0).1 "t" 1).1.map
        (fun rt => rt.revokedAt)) = [some 1] ∧
    some (1 : Int) ≠ some (0 : Int) := by decide

/-- C4 amended.  `RevokeRefreshToken` signals `NotFound` when no record
matches; when a record matches it returns no error — also on a second,
repeated call — but each call sets every matching record's `revokedAt` to
its own `now` (the code's unguarded UPDATE), so the value is NOT left
unchanged from the first call. -/
theorem revoke_notfound_and_overwrite (store : List RefreshToken) (tok : String)
    (now : Int) :
    (store.any (fun rt => rt.token == tok) = false →
      RevokeRefreshToken store tok now = (store, .error .notFound)) ∧
    (store.any (fun rt => rt.token == tok) = true →
      (RevokeRefreshToken store tok now).2 = .ok () ∧
      ∀ rt ∈ (RevokeRefreshToken store tok now).1,
        rt.token = tok → rt.revokedAt = some now) := by
  constructor
  · intro h
    simp [RevokeRefreshToken, h]
  · intro h
    have e : RevokeRefreshToken store tok now =
        (store.map (fun rt =>
            if rt.token == tok then { rt with revokedAt := some now, updatedAt := now }
            else rt),
          .ok ()) := by
      simp [RevokeRefreshToken, h]
    rw [e]
    refine ⟨rfl, ?_⟩
    intro rt hrt htok
    rcases List.mem_map.1 hrt with ⟨a, _, rfl⟩
    by_cases hb : (a.token == tok) = true
    · simp [hb]
    · exfalso
      rw [if_neg (by simp [hb])] at htok
      exact hb (by simp [htok])

/-- C2 counterexample.  The liveness failures share ONE error value: a
used token and an expired token (failing the liveness check for different
reasons) both make the refresh exchange fail with the same
`refresh token is expired or revoked` error, so the failure kinds
`Used`/`Expired`/`Revoked` are not distinct in the code. -/
theorem refresh_error_kinds_counterexample :
    (RefreshTokenExchange [usedTok] "u" "d" "a" "s" 10 20 10 "n" 3 txAllOk).2 =
      (RefreshTokenExchange [expiredTok] "e" "d" "a" "s" 10 20 10 "n" 3 txAllOk).2 ∧
    (RefreshTokenExchange [usedTok] "u" "d" "a" "s" 10 20 10 "n" 3 txAllOk).2 =
      .error .refreshNotLive ∧
    usedTok.used = true ∧
    expiredTok.used = false ∧ expiredTok.revokedAt = none ∧
    expiredTok.expiresAt < 10 := by decide

/-- C2 amended.  The refresh exchange fails with the distinct
`invalid refresh token` error when no record matches, and with one shared
`expired or revoked` error for EVERY non-live record (used, revoked or
expired alike); in both failure cases no tokens are issued and the store
is unchanged. -/
theorem refresh_failure_taxonomy (store : List RefreshToken)
    (tok d i secret : String) (je re now : Int) (nr : String) (nid : Nat)
    (tx : TxOracle) :
    (GetRefreshToken store tok = none →
      RefreshTokenExchange store tok d i secret je re now nr nid tx =
        (store, .error .invalidRefreshToken)) ∧
    (∀ t, GetRefreshToken store tok = some t → t.IsValid now = false →
      RefreshTokenExchange store tok d i secret je re now nr nid tx =
        (store, .error .refreshNotLive)) := by
  constructor
  · intro h
    simp [RefreshTokenExchange, h]
  · intro t ht hv
    simp [RefreshTokenExchange, ht, hv]

/-- C3 counterexample.  A locked identity still gets tokens from
`LoginWithRefresh`: with the lock key live (`IsLocked` true at instant 0)
and a correct password, the call succeeds and issues an access and a
refresh token instead of failing with the locked error —
`LoginWithRefresh` never consults the lockout guard. -/
theorem lockout_bypass_counterexample :
    IsLocked lockedLo 0 = true ∧
    (LoginWithRefresh [aliceUser] [] "a" "pw" "d" "i" "s" 10 20 0 "rt" 1).2 =
      .ok (signToken "s" 1 10 0, "rt") := by decide

/-- C3 amended.  Only `Login` consults the lockout guard before password
verification (a locked identity fails with the locked error, no token,
state untouched); `LoginWithRefresh` — the call that issues both an access
and a refresh token — performs no lockout check at all: with a correct
password it issues tokens regardless of any lock, and its result depends
on no lockout state. -/
theorem login_lockout_gate (users : List User) (store : List RefreshToken)
    (lo : LockoutState) (email pw d i secret ft : String) (je re now : Int)
    (nid : Nat) :
    (IsLocked lo now = true →
      Login users lo email pw secret now = (lo, .error .accountLocked)) ∧
    (∀ u, findByEmail users email = some u → checkPassword u pw = true →
      LoginWithRefresh users store email pw d i secret je re now ft nid =
        ((CreateRefreshToken store nid u.id ft (now + re) d i now).1,
          .ok (signToken secret u.id (now + je) now, ft))) := by
  constructor
  · intro h
    simp [Login, h]
  · intro u hu hp
    simp [LoginWithRefresh, CreateRefreshToken, hu, hp]

/-- C9 counterexample.  `LoginWithRefresh` reveals whether the identity
exists: a non-existent email fails with the repository's not-found error
while an existing email with a wrong password fails with a different
invalid-credentials error, and no failed attempt is recorded in either
case (the function takes no lockout state at all). -/
theorem enumeration_counterexample :
    (LoginWithRefresh [aliceUser] [] "b" "pw" "d" "i" "s" 10 20 0 "rt" 1).2 =
      .error .notFound ∧
    (LoginWithRefresh [aliceUser] [] "a" "bad" "d" "i" "s" 10 20 0 "rt" 1).2 =
      .error .invalidCredentialsLWR ∧
    AuthError.notFound ≠ AuthError.invalidCredentialsLWR := by decide

/-- C9 amended.  `Login` is uniform: for an unlocked identity, a missing
user and a wrong password both yield the same `ErrInvalidCredentials` and
both record a failed attempt against the identity key.  `LoginWithRefresh`
is NOT uniform: a missing user surfaces the repository's not-found error,
a wrong password a distinct invalid-credentials error, and neither path
records an attempt (the store, the only state it touches, is unchanged). -/
theorem login_uniform_failures (users : List User) (store : List RefreshToken)
    (lo : LockoutState) (email pw d i secret ft : String) (je re now : Int)
    (nid : Nat) :
    (IsLocked lo now = false →
      (findByEmail users email = none →
        Login users lo email pw secret now =
          ((RecordFailedAttempt defaultLockoutConfig lo now).1,
            .error .invalidCredentials)) ∧
      (∀ u, findByEmail users email = some u → checkPassword u pw = false →
        Login users lo email pw secret now =
          ((RecordFailedAttempt defaultLockoutConfig lo now).1,
            .error .invalidCredentials))) ∧
    (findByEmail users email = none →
      LoginWithRefresh users store email pw d i secret je re now ft nid =
        (store, .error .notFound)) ∧
    (∀ u, findByEmail users email = some u → checkPassword u pw = false →
      LoginWithRefresh users store email pw d i secret je re now ft nid =
        (store, .error .invalidCredentialsLWR)) := by
  refine ⟨fun hl => ⟨?_, ?_⟩, ?_, ?_⟩
  · intro h
    simp [Login, hl, h]
  · intro u hu hp
    have hok := record_ok_of_unlocked defaultLockoutConfig lo now hl
    simp [Login, hl, hu, hp, hok]
  · intro h
    simp [LoginWithRefresh, h]
  · intro u hu hp
    simp [LoginWithRefresh, hu, hp]

/-- The claim checks pass exactly for a well-formed token whose expiry has
not passed and whose issued-at is not in the future. -/
theorem claimsValid_ok_iff (c : TokenClaims) (now : Int) :
    claimsValid c now = .ok () ↔
      (c.userId ≠ 0 ∧ c.expiresAt ≠ 0 ∧ c.issuedAt ≠ 0 ∧
       now ≤ c.expiresAt ∧ c.issuedAt ≤ now) := by
  unfold claimsValid
  split_ifs with h1 h2 h3 h4 h5 <;> simp <;> omega

/-- C7 counterexample.  The blacklist is consulted BEFORE the signature:
a blacklisted token whose signature was not produced by the server's
secret still fails with `Blacklisted`, although signature verification
alone would reject it — under the claim's order (signature first) the
call would fail with the invalid-signature error instead. -/
theorem blacklist_before_signature_counterexample :
    ValidateToken "server" blSample badSigTok 10 = .error .tokenBlacklisted ∧
    badSigTok.secret ≠ "server" ∧
    parseWithClaims "server" badSigTok 10 = .error .jwtBadSignature := by decide

/-- C7 amended.  `ValidateToken` consults the blacklist FIRST — a
blacklisted token fails with `Blacklisted` whatever its signature — and
otherwise parses the token: an expired token fails with the expired
error, and the claims are returned exactly when the signature matches
the server secret, the identity id is non-zero, expiry and issued-at are
present, the expiry has not passed and the issued-at is not in the
future. -/
theorem validate_blacklist_first (secret : String) (bl : Blacklist)
    (tok : SignedToken) (now : Int) :
    (blacklisted bl tok now = true →
      ValidateToken secret bl tok now = .error .tokenBlacklisted) ∧
    (blacklisted bl tok now = false →
      ValidateToken secret bl tok now = parseWithClaims secret tok now ∧
      (tok.claims.expiresAt ≠ 0 → tok.claims.expiresAt < now →
        ValidateToken secret bl tok now = .error .jwtExpired) ∧
      (ValidateToken secret bl tok now = .ok tok.claims ↔
        (tok.secret = secret ∧ tok.claims.userId ≠ 0 ∧
         tok.claims.expiresAt ≠ 0 ∧ tok.claims.issuedAt ≠ 0 ∧
         now ≤ tok.claims.expiresAt ∧ tok.claims.issuedAt ≤ now))) := by
  constructor
  · intro h
    simp [ValidateToken, h]
  · intro h
    have hv : ValidateToken secret bl tok now = parseWithClaims secret tok now := by
      simp [ValidateToken, h]
    refine ⟨hv, fun h0 hlt => ?_, ?_⟩
    · rw [hv]
      simp [parseWithClaims, claimsValid, h0, hlt]
    · rw [hv]
      constructor
      · intro hok
        unfold parseWithClaims at hok
        cases hcv : claimsValid tok.claims now with
        | error e => rw [hcv] at hok; exact absurd hok (by simp)
        | ok u =>
          rw [hcv] at hok
          by_cases hs : tok.secret = secret
          · cases u
            have hc := (claimsValid_ok_iff tok.claims now).1 hcv
            exact ⟨hs, hc.1, hc.2.1, hc.2.2.1, hc.2.2.2.1, hc.2.2.2.2⟩
          · rw [if_pos hs] at hok
            exact absurd hok (by simp)
      · rintro ⟨hs, h2, h3, h4, h5, h6⟩
        have hcv : claimsValid tok.claims now = .ok () :=
          (claimsValid_ok_iff tok.claims now).2 ⟨h2, h3, h4, h5, h6⟩
        unfold parseWithClaims
        rw [hcv]
        simp [hs]

/-- C8 counterexample.  For a token whose remaining validity is ≤ 0 (it
expired before `now`), `Logout` is NOT a silent no-op: the validation it
performs first rejects the token, so the call returns the expired error
instead of no error. -/
theorem logout_expired_errors_counterexample :
    expiredSigned.claims.expiresAt - 10 ≤ 0 ∧
    Logout "s" [] expiredSigned 10 = ([], .error .jwtExpired) := by decide

/-- C8 amended.  `Logout` validates first, so a token that failed
validation (in particular one already expired) returns that error and
writes nothing; when validation succeeds and the remaining validity
`claims.expiresAt - now` is ≤ 0 (only the boundary `expiresAt = now` is
reachable) the call is a no-op returning no error; otherwise it writes
one blacklist entry expiring exactly at `claims.expiresAt` — TTL equal to
the remaining validity, never outliving the token. -/
theorem logout_blacklists_remaining (secret : String) (bl : Blacklist)
    (tok : SignedToken) (now : Int) :
    (∀ e, ValidateToken secret bl tok now = .error e →
      Logout secret bl tok now = (bl, .error e)) ∧
    (∀ c, ValidateToken secret bl tok now = .ok c →
      (c.expiresAt - now ≤ 0 → Logout secret bl tok now = (bl, .ok ())) ∧
      (0 < c.expiresAt - now →
        Logout secret bl tok now = (bl ++ [(tok, c.expiresAt)], .ok ()))) := by
  constructor
  · intro e he
    simp [Logout, he]
  · intro c hc
    constructor
    · intro hle
      simp [Logout, hc, hle]
    · intro hpos
      have hgt : ¬ (c.expiresAt - now ≤ 0) := by omega
      simp [Logout, hc, hgt]

/-- C6.  With `maxAttempts = 3` and `window = 1 s`, at any instant `t`:
three `Allow` calls are admitted, a fourth call within the window is
denied and writes no new attempt entry (the recorded attempts are exactly
those of the third call, so a denied call does not extend the window),
and a call one window after the recorded attempts is admitted again. -/
theorem rate_limit_window (t : Int) :
    (Allow cfg6 rlEmpty t 1).2 = true ∧
    (Allow cfg6 (Allow cfg6 rlEmpty t 1).1 t 2).2 = true ∧
    (Allow cfg6 (Allow cfg6 (Allow cfg6 rlEmpty t 1).1 t 2).1 t 3).2 = true ∧
    (Allow cfg6 (Allow cfg6 (Allow cfg6 (Allow cfg6 rlEmpty t 1).1 t 2).1 t 3).1
        t 4).2 = false ∧
    (Allow cfg6 (Allow cfg6 (Allow cfg6 (Allow cfg6 rlEmpty t 1).1 t 2).1 t 3).1
        t 4).1.entries =
      (Allow cfg6 (Allow cfg6 (Allow cfg6 rlEmpty t 1).1 t 2).1 t 3).1.entries ∧
    (Allow cfg6 (Allow cfg6 (Allow cfg6 (Allow cfg6 (Allow cfg6 rlEmpty t 1).1
        t 2).1 t 3).1 t 4).1 (t + 1) 5).2 = true := by
  have hlive : t < t + 1 := by omega
  have hpr : decide (t ≤ t - 1) = false := decide_eq_false (by omega)
  have hne12 : (rlMember t 1 == rlMember t 2) = false :=
    beq_eq_false_iff_ne.mpr (rlMember_ne t 1 2 (by decide))
  have hne13 : (rlMember t 1 == rlMember t 3) = false :=
    beq_eq_false_iff_ne.mpr (rlMember_ne t 1 3 (by decide))
  have hne23 : (rlMember t 2 == rlMember t 3) = false :=
    beq_eq_false_iff_ne.mpr (rlMember_ne t 2 3 (by decide))
  have e1 : Allow cfg6 rlEmpty t 1 =
      (⟨[(t, rlMember t 1)], some (t + 1)⟩, true) := by
    simp [Allow, cfg6, rlEmpty, rlLive, zadd]
  have e2 : Allow cfg6 ⟨[(t, rlMember t 1)], some (t + 1)⟩ t 2 =
      (⟨[(t, rlMember t 1), (t, rlMember t 2)], some (t + 1)⟩, true) := by
    simp [Allow, cfg6, rlLive, zadd, hlive, hpr, hne12]
  have e3 : Allow cfg6 ⟨[(t, rlMember t 1), (t, rlMember t 2)], some (t + 1)⟩ t 3 =
      (⟨[(t, rlMember t 1), (t, rlMember t 2), (t, rlMember t 3)],
          some (t + 1)⟩, true) := by
    simp [Allow, cfg6, rlLive, zadd, hlive, hpr, hne13, hne23]
  have e4 : Allow cfg6
      ⟨[(t, rlMember t 1), (t, rlMember t 2), (t, rlMember t 3)], some (t + 1)⟩ t 4 =
      (⟨[(t, rlMember t 1), (t, rlMember t 2), (t, rlMember t 3)],
          some (t + 1)⟩, false) := by
    simp [Allow, cfg6, rlLive, hlive, hpr]
  have hdead : ¬ (t + 1 < t + 1) := by omega
  have e5 : Allow cfg6
      ⟨[(t, rlMember t 1), (t, rlMember t 2), (t, rlMember t 3)], some (t + 1)⟩
      (t + 1) 5 =
      (⟨[(t + 1, rlMember (t + 1) 5)], some (t + 1 + 1)⟩, true) := by
    simp [Allow, cfg6, rlLive, rlEmpty, zadd, hdead]
  simp [e1, e2, e3, e4, e5]

end EchoAuth
